import Mathlib

/-!
Shallow embedding of the pcse abiotic-damage components
(`src/pcse/crop/abioticdamage.py`) and of the soil wrapper components
(`src/pcse/soil/soil_npk_water.py`).

Numeric values are modelled as real numbers.  Python runtime failures
(unbound locals, missing dictionary keys, undeclared attribute access on the
fixed-schema parameter/rate containers, `ParameterError`) are modelled by an
explicit error type `PyErr`, and fallible calls return `Except PyErr`.
-/

noncomputable section

/-- Modelled from the spec: values are "clipped into declared bounds"
`[vmin, vmax]`.  This is `pcse.util.limit`; the `pcse.util` module itself is
not among the provided sources. -/
def limit (vmin vmax v : ℝ) : ℝ := max vmin (min vmax v)

/-- Runtime failures of the embedded Python code: an unbound local variable
(Python `NameError`), a missing dictionary key on the kiosk (`KeyError`),
access to an attribute that the fixed-schema container does not declare
(`AttributeError`), and the pcse `ParameterError` raised at initialization. -/
inductive PyErr where
  | nameError (what : String)
  | keyError (key : String)
  | attributeError (attr : String)
  | parameterError (msg : String)
deriving DecidableEq

/-- Signals emitted through `SimulationObject._send_signal`. -/
inductive PcseSignal where
  | crop_finish (finish : String)
deriving DecidableEq

/-- One day's driving-variable record, with the fields the embedded
components read. -/
structure Drv where
  TMIN : ℝ
  TMAX : ℝ
  TEMP : ℝ
  TMIN_CROWN : ℝ
  TMAX_CROWN : ℝ
  TEMP_CROWN : ℝ
  SNOWDEPTH : ℝ

/-- The variable kiosk, restricted to the two names the embedded components
look up.  `none` models the name being absent from the kiosk. -/
structure Kiosk where
  ISVERNALISED : Option Bool
  SNOWDEPTH : Option ℝ

/-! ## CrownTemperature -/

/-- `CrownTemperature.Parameters`. -/
structure CrownTemperatureParams where
  CROWNTMPA : ℝ
  CROWNTMPB : ℝ
  ISNOWSRC : ℝ

/-- Snow-depth resolution at the head of `CrownTemperature.__call__`:
taken from the driving variables when `ISNOWSRC == 0`, otherwise looked up
in the kiosk (where it may be absent). -/
def crownSnowDepth (p : CrownTemperatureParams) (kiosk : Kiosk) (drv : Drv) :
    Option ℝ :=
  if p.ISNOWSRC = 0 then some drv.SNOWDEPTH else kiosk.SNOWDEPTH

/-- `CrownTemperature.__call__`: returns the tuple
`(TMIN_crown, TMAX_crown, TEMP_crown)`. -/
def CrownTemperature_call (p : CrownTemperatureParams) (kiosk : Kiosk)
    (drv : Drv) : Except PyErr (ℝ × ℝ × ℝ) :=
  match crownSnowDepth p kiosk drv with
  | none => .error (.keyError "SNOWDEPTH")
  | some SD =>
    let RSD := limit 0 15 SD / 15
    if drv.TMIN < 0 then
      let TMIN_crown := drv.TMIN * (p.CROWNTMPA + p.CROWNTMPB * (1 - RSD) ^ 2)
      let TMAX_crown := drv.TMAX * (p.CROWNTMPA + p.CROWNTMPB * (1 - RSD) ^ 2)
      let TEMP_crown := (TMIN_crown + TMAX_crown) / 2
      .ok (TMIN_crown, TMAX_crown, TEMP_crown)
    else
      .ok (drv.TMIN, drv.TMAX, drv.TEMP)

/-! ## FROSTOL -/

/-- `FROSTOL.Parameters`. -/
structure FrostolParams where
  IDSL : ℝ
  LT50C : ℝ
  FROSTOL_H : ℝ
  FROSTOL_D : ℝ
  FROSTOL_S : ℝ
  FROSTOL_R : ℝ
  FROSTOL_SDBASE : ℝ
  FROSTOL_SDMAX : ℝ
  FROSTOL_KILLCF : ℝ
  ISNOWSRC : ℝ

/-- `FROSTOL.RateVariables`. -/
structure FrostolRates where
  RH : ℝ
  RDH_TEMP : ℝ
  RDH_RESP : ℝ
  RDH_TSTR : ℝ
  IDFS : ℤ
  RF_FROST : ℝ

/-- `FROSTOL.StateVariables`. -/
structure FrostolStates where
  LT50T : ℝ
  LT50I : ℝ
  IDFST : ℤ

/-- The message of the `ParameterError` raised by `FROSTOL.initialize`. -/
def frostolVernalizationMsg : String :=
  "FROSTOL needs vernalization to be enabled in the phenology module (IDSL=2)."

/-- `FROSTOL.initialize`: builds the initial states from `LT50C`, then
raises `ParameterError` when `IDSL < 2`. -/
def frostolInitialize (p : FrostolParams) : Except PyErr FrostolStates :=
  let LT50I := -0.6 + 0.142 * p.LT50C
  let states : FrostolStates := { LT50T := LT50I, LT50I := LT50I, IDFST := 0 }
  if p.IDSL < 2 then .error (.parameterError frostolVernalizationMsg)
  else .ok states

/-- Hardening block of `FROSTOL.calc_rates` (rate `RH`). -/
def frostolRH (p : FrostolParams) (s : FrostolStates) (isVernalized : Bool)
    (drv : Drv) : ℝ :=
  if (¬ isVernalized) ∧ drv.TEMP_CROWN < 10 then
    p.FROSTOL_H * (10 - limit 0 10 drv.TEMP_CROWN) * (s.LT50T - p.LT50C)
  else 0

/-- Dehardening-by-temperature block of `FROSTOL.calc_rates`
(rate `RDH_TEMP`). -/
def frostolRDH_TEMP (p : FrostolParams) (s : FrostolStates)
    (isVernalized : Bool) (drv : Drv) : ℝ :=
  let TCcrit : ℝ := if ¬ isVernalized then 10 else -4
  if drv.TEMP_CROWN > TCcrit then
    p.FROSTOL_D * (s.LT50I - s.LT50T) * (drv.TEMP_CROWN + 4) ^ 3
  else 0

/-- Respiration-stress block of `FROSTOL.calc_rates` (rate `RDH_RESP`). -/
def frostolRDH_RESP (p : FrostolParams) (snow_depth : ℝ) (drv : Drv) : ℝ :=
  let xTC := if drv.TEMP_CROWN > -2.5 then drv.TEMP_CROWN else -2.5
  let Resp := (Real.exp (0.84 + 0.051 * xTC) - 2) / 1.85
  let Fsnow := limit 0 1
    ((snow_depth - p.FROSTOL_SDBASE) / (p.FROSTOL_SDMAX - p.FROSTOL_SDBASE))
  p.FROSTOL_R * Resp * Fsnow

/-- Low-temperature-stress block of `FROSTOL.calc_rates` (rate `RDH_TSTR`). -/
def frostolRDH_TSTR (p : FrostolParams) (s : FrostolStates) (drv : Drv) : ℝ :=
  (s.LT50T - drv.TEMP_CROWN) * 1 /
    Real.exp (-p.FROSTOL_S * (s.LT50T - drv.TEMP_CROWN) - 3.74)

/-- The logistic kill factor of `FROSTOL.calc_rates`, before clipping. -/
def frostolKillfactorRaw (p : FrostolParams) (s : FrostolStates) (drv : Drv) :
    ℝ :=
  1 / (1 + Real.exp ((drv.TMIN_CROWN - s.LT50T) / p.FROSTOL_KILLCF))

/-- The clipping applied to the kill factor in `FROSTOL.calc_rates`:
values below 0.05 snap to 0, values above 0.95 snap to 1. -/
def frostolKillfactorClipped (killfactor : ℝ) : ℝ :=
  if killfactor < 0.05 then 0
  else if killfactor > 0.95 then 1
  else killfactor

/-- The body of `FROSTOL.calc_rates` once the vernalisation flag and the
snow depth have been resolved: the record of rate values it assigns. -/
def frostolRates (p : FrostolParams) (s : FrostolStates) (isVernalized : Bool)
    (snow_depth : ℝ) (drv : Drv) : FrostolRates :=
  { RH := frostolRH p s isVernalized drv
    RDH_TEMP := frostolRDH_TEMP p s isVernalized drv
    RDH_RESP := frostolRDH_RESP p snow_depth drv
    RDH_TSTR := frostolRDH_TSTR p s drv
    IDFS :=
      if frostolKillfactorClipped (frostolKillfactorRaw p s drv) > 0 then 1
      else 0
    RF_FROST := frostolKillfactorClipped (frostolKillfactorRaw p s drv) }

/-- A FROSTOL component instance: parameters, states and rates containers. -/
structure FrostolComp where
  params : FrostolParams
  states : FrostolStates
  rates : FrostolRates

/-- Snow-depth resolution in `FROSTOL.calc_rates`: from the driving
variables when `ISNOWSRC == 0`, otherwise from the kiosk. -/
def frostolSnowDepth (p : FrostolParams) (kiosk : Kiosk) (drv : Drv) :
    Option ℝ :=
  if p.ISNOWSRC = 0 then some drv.SNOWDEPTH else kiosk.SNOWDEPTH

/-- `FROSTOL.calc_rates` at the component level.  The `try/except KeyError:
pass` around the `ISVERNALISED` lookup swallows the lookup failure, so when
the key is absent the later use of the local `isVernalized` (in the
hardening test) raises a `NameError`; a missing kiosk `SNOWDEPTH` (with
`ISNOWSRC != 0`) raises `KeyError` first, since the snow-depth lookup sits
between the two.  Returns the component after the call (the body assigns
only rate fields) together with the call's outcome. -/
def frostolCompCalcRates (c : FrostolComp) (kiosk : Kiosk) (drv : Drv) :
    FrostolComp × Except PyErr Unit :=
  match frostolSnowDepth c.params kiosk drv with
  | none => (c, .error (.keyError "SNOWDEPTH"))
  | some snow_depth =>
    match kiosk.ISVERNALISED with
    | none => (c, .error (.nameError "isVernalized"))
    | some isVernalized =>
      ({ c with
          rates := frostolRates c.params c.states isVernalized snow_depth drv },
       .ok ())

/-- `FROSTOL.integrate`: applies the day's rates to `LT50T`, clipping the
result into `[LT50C, LT50I]`, and accumulates the frost-stress day count. -/
def frostolIntegrate (p : FrostolParams) (s : FrostolStates)
    (r : FrostolRates) : FrostolStates :=
  let LT50T := s.LT50T - r.RH + (r.RDH_TEMP + r.RDH_RESP + r.RDH_TSTR)
  { LT50T := limit p.LT50C s.LT50I LT50T
    LT50I := s.LT50I
    IDFST := s.IDFST + r.IDFS }

/-! ## CERES_WinterKill

`CERES_WinterKill.calc_rates` reads the parameter names `CERESWK_HC_S1`,
`CERESWK_HC_S2` and `CERESWK_DHC` while the `Parameters` container declares
`CWWK_HC_S1`, `CWWK_HC_S2` and `CWWK_DHC`; it assigns `rates.KILLFACTOR`
while the `RateVariables` container declares `HIKILLFACTOR`; and it reads
`drv.TMINCROWN` where the driving variable is named `TMIN_CROWN`.  Access
to an undeclared name is modelled as `PyErr.attributeError` (modelled from
the spec for the container writes: the parameter/state/rate containers are
"typed, validated key/value bundles with fixed schemas", so assignment to a
name outside the schema fails; the container base classes are not among the
provided sources). -/

/-- `CERES_WinterKill.Parameters`. -/
structure CWWKParams where
  CWWK_HC_S1 : ℝ
  CWWK_HC_S2 : ℝ
  CWWK_DHC : ℝ
  CWWK_KILLTEMP : ℝ

/-- `CERES_WinterKill.StateVariables`. -/
structure CWWKStates where
  HARDINDEX : ℝ
  HIKILLTEMP : ℝ

/-- `CERES_WinterKill.RateVariables`. -/
structure CWWKRates where
  HARDINDEX_INCR : ℝ
  HARDINDEX_DECR : ℝ
  HIKILLFACTOR : ℝ

/-- A CERES_WinterKill component instance. -/
structure CWWKComp where
  params : CWWKParams
  states : CWWKStates
  rates : CWWKRates

/-- Outcome of one `CERES_WinterKill.calc_rates` call: the component as it
stands after the call (rate assignments made before any exception are
kept), the signals emitted during the call, and the call's outcome. -/
structure CWWKCallResult where
  comp : CWWKComp
  emitted : List PcseSignal
  outcome : Except PyErr Unit

/-- Kill-factor section of `CERES_WinterKill.calc_rates`.  Every branch
fails on an undeclared name: the first two assign `rates.KILLFACTOR`
(declared name: `HIKILLFACTOR`), and in the first of them the assignment
precedes the `_send_signal(signals.crop_finish, ...)` call, so no signal is
emitted; the third reads `drv.TMINCROWN` (the driving variable is named
`TMIN_CROWN`). -/
def ceresKillFactorSection (c : CWWKComp) (drv : Drv) : CWWKCallResult :=
  if drv.TMIN_CROWN < c.states.HIKILLTEMP then
    ⟨c, [], .error (.attributeError "KILLFACTOR")⟩
  else if drv.TMIN_CROWN > c.params.CWWK_KILLTEMP then
    ⟨c, [], .error (.attributeError "KILLFACTOR")⟩
  else
    ⟨c, [], .error (.attributeError "TMINCROWN")⟩

/-- Dehardening section of `CERES_WinterKill.calc_rates`.  When
`TMAX_CROWN > 10` it reads the undeclared parameter name `CERESWK_DHC`;
otherwise it assigns `rates.HARDINDEX_DECR = 0.` and falls through to the
kill-factor section. -/
def ceresDehardSection (c : CWWKComp) (drv : Drv) : CWWKCallResult :=
  if drv.TMAX_CROWN > 10 then
    ⟨c, [], .error (.attributeError "CERESWK_DHC")⟩
  else
    ceresKillFactorSection
      { c with rates := { c.rates with HARDINDEX_DECR := 0 } } drv

/-- `CERES_WinterKill.calc_rates` at the component level: kiosk snow-depth
lookup, then the hardening, dehardening and kill-factor sections. -/
def ceresCompCalcRates (c : CWWKComp) (kiosk : Kiosk) (drv : Drv) :
    CWWKCallResult :=
  match kiosk.SNOWDEPTH with
  | none => ⟨c, [], .error (.keyError "SNOWDEPTH")⟩
  | some _snow_depth =>
    if c.states.HARDINDEX ≥ 1 then
      if drv.TEMP_CROWN < 0 then
        ⟨c, [], .error (.attributeError "CERESWK_HC_S2")⟩
      else
        ceresDehardSection
          { c with rates := { c.rates with HARDINDEX_INCR := 0 } } drv
    else
      if drv.TEMP_CROWN > -1 ∧ drv.TEMP_CROWN < 8 then
        ⟨c, [], .error (.attributeError "CERESWK_HC_S1")⟩
      else
        ceresDehardSection
          { c with rates := { c.rates with HARDINDEX_INCR := 0 } } drv

/-! ## Concrete instances used in witnesses and counterexamples -/

/-- A concrete FROSTOL parameter set. -/
def frostolDemoParams : FrostolParams :=
  { IDSL := 2, LT50C := -20, FROSTOL_H := 0.1, FROSTOL_D := 0.1
    FROSTOL_S := 0.1, FROSTOL_R := 0.1, FROSTOL_SDBASE := 4
    FROSTOL_SDMAX := 30, FROSTOL_KILLCF := 1, ISNOWSRC := 0 }

/-- A concrete FROSTOL state with `LT50T = 0`. -/
def frostolDemoStates : FrostolStates := { LT50T := 0, LT50I := 0, IDFST := 0 }

/-- A concrete FROSTOL component instance. -/
def frostolDemoComp : FrostolComp :=
  { params := frostolDemoParams, states := frostolDemoStates
    rates := ⟨0, 0, 0, 0, 0, 0⟩ }

/-- Driving variables whose minimum crown temperature `log 19` makes the raw
kill factor (with `LT50T = 0` and `FROSTOL_KILLCF = 1`) exactly
`1 / (1 + 19) = 0.05`. -/
def boundaryDrv : Drv :=
  { TMIN := 0, TMAX := 0, TEMP := 0, TMIN_CROWN := Real.log 19
    TMAX_CROWN := 0, TEMP_CROWN := 0, SNOWDEPTH := 0 }

/-- A concrete driving-variable record with `TMIN = 1 ≥ 0`,
`TEMP_CROWN = 5` and zero snow depth. -/
def demoDrv : Drv :=
  { TMIN := 1, TMAX := 5, TEMP := 3, TMIN_CROWN := -8
    TMAX_CROWN := 2, TEMP_CROWN := 5, SNOWDEPTH := 0 }

/-- Concrete `CrownTemperature` parameters with the typical A and B values
and snow depth taken from the driving variables. -/
def crownDemoParams : CrownTemperatureParams :=
  { CROWNTMPA := 0.2, CROWNTMPB := 0.5, ISNOWSRC := 0 }

/-- A concrete kiosk holding both variables. -/
def demoKiosk : Kiosk := { ISVERNALISED := some false, SNOWDEPTH := some 5 }

/-- A concrete CERES_WinterKill component whose current kill temperature is
`-6` degrees. -/
def ceresDemoComp : CWWKComp :=
  { params := { CWWK_HC_S1 := 0.1, CWWK_HC_S2 := 0.083333
                CWWK_DHC := 0.02, CWWK_KILLTEMP := -6 }
    states := { HARDINDEX := 0, HIKILLTEMP := -6 }
    rates := { HARDINDEX_INCR := 0, HARDINDEX_DECR := 0, HIKILLFACTOR := 0 } }

/-- A concrete driving-variable record whose minimum crown temperature
`-10` lies below the demo component's kill temperature `-6`. -/
def ceresDemoDrv : Drv :=
  { TMIN := -12, TMAX := -2, TEMP := -7, TMIN_CROWN := -10
    TMAX_CROWN := 9, TEMP_CROWN := 8.5, SNOWDEPTH := 5 }

/-! ## Soil wrapper components

The children (`WaterbalanceFD`, `NPK_Soil_Dynamics`, `WaterbalancePP`,
`NPK_PotentialProduction`) live in modules outside the provided sources, so
they are abstract here: each child method is an arbitrary function on the
child's own state that also reports the calls it performs, and the wrapper,
embedded from `soil_npk_water.py`, forwards to them in the declared order
and concatenates their call reports in call order. -/

/-- A record of one forwarded method call, for call-order instrumentation. -/
inductive MethodCall where
  | calcRates (component : String)
  | integrateCall (component : String)
deriving DecidableEq

/-- State of `SoilWaterNPKLimitedProduction`: exactly its two children. -/
structure SoilWaterNPKLimitedProductionState (α β : Type) where
  WaterbalanceFD : α
  NPK_Soil_Dynamics : β

/-- `SoilWaterNPKLimitedProduction.calc_rates`: forwards to
`WaterbalanceFD.calc_rates` then `NPK_Soil_Dynamics.calc_rates`. -/
def soilWaterNPKLimitedCalcRates {α β : Type}
    (wbCalc : ℕ → Drv → α → α × List MethodCall)
    (npkCalc : ℕ → Drv → β → β × List MethodCall)
    (day : ℕ) (drv : Drv) (s : SoilWaterNPKLimitedProductionState α β) :
    SoilWaterNPKLimitedProductionState α β × List MethodCall :=
  let w := wbCalc day drv s.WaterbalanceFD
  let n := npkCalc day drv s.NPK_Soil_Dynamics
  (⟨w.1, n.1⟩, w.2 ++ n.2)

/-- `SoilWaterNPKLimitedProduction.integrate`: forwards to
`WaterbalanceFD.integrate` then `NPK_Soil_Dynamics.integrate`, passing
`delt` through. -/
def soilWaterNPKLimitedIntegrate {α β : Type}
    (wbInt : ℕ → ℝ → α → α × List MethodCall)
    (npkInt : ℕ → ℝ → β → β × List MethodCall)
    (day : ℕ) (delt : ℝ) (s : SoilWaterNPKLimitedProductionState α β) :
    SoilWaterNPKLimitedProductionState α β × List MethodCall :=
  let w := wbInt day delt s.WaterbalanceFD
  let n := npkInt day delt s.NPK_Soil_Dynamics
  (⟨w.1, n.1⟩, w.2 ++ n.2)

/-- State of `SoilWaterNPKPotenialProduction` (class name as in the
source): exactly its two children. -/
structure SoilWaterNPKPotenialProductionState (α β : Type) where
  WaterbalancePP : α
  NPK_PotentialProduction : β

/-- `SoilWaterNPKPotenialProduction.calc_rates`: forwards to
`WaterbalancePP.calc_rates` then `NPK_PotentialProduction.calc_rates`. -/
def soilWaterNPKPotenialCalcRates {α β : Type}
    (wbCalc : ℕ → Drv → α → α × List MethodCall)
    (npkCalc : ℕ → Drv → β → β × List MethodCall)
    (day : ℕ) (drv : Drv) (s : SoilWaterNPKPotenialProductionState α β) :
    SoilWaterNPKPotenialProductionState α β × List MethodCall :=
  let w := wbCalc day drv s.WaterbalancePP
  let n := npkCalc day drv s.NPK_PotentialProduction
  (⟨w.1, n.1⟩, w.2 ++ n.2)

/-- `SoilWaterNPKPotenialProduction.integrate`: forwards to
`WaterbalancePP.integrate` then `NPK_PotentialProduction.integrate`. -/
def soilWaterNPKPotenialIntegrate {α β : Type}
    (wbInt : ℕ → ℝ → α → α × List MethodCall)
    (npkInt : ℕ → ℝ → β → β × List MethodCall)
    (day : ℕ) (delt : ℝ) (s : SoilWaterNPKPotenialProductionState α β) :
    SoilWaterNPKPotenialProductionState α β × List MethodCall :=
  let w := wbInt day delt s.WaterbalancePP
  let n := npkInt day delt s.NPK_PotentialProduction
  (⟨w.1, n.1⟩, w.2 ++ n.2)

end

/-! ## Shared lemmas -/

/-- The demo inputs make the raw kill factor exactly `0.05`. -/
lemma frostolDemo_killfactorRaw :
    frostolKillfactorRaw frostolDemoParams frostolDemoStates boundaryDrv =
      0.05 := by
  unfold frostolKillfactorRaw frostolDemoParams frostolDemoStates boundaryDrv
  rw [show (Real.log 19 - 0) / 1 = Real.log 19 by ring]
  rw [Real.exp_log (by norm_num)]
  norm_num

/-- `FROSTOL.calc_rates` assigns only rate fields: states survive the call
unchanged along every path. -/
lemma frostolCalc_states_eq (c : FrostolComp) (k : Kiosk) (d : Drv) :
    (frostolCompCalcRates c k d).1.states = c.states := by
  unfold frostolCompCalcRates
  repeat' split
  all_goals rfl

/-- `CERES_WinterKill.calc_rates` assigns only rate fields: states survive
the call unchanged along every path. -/
lemma ceresCalc_states_eq (c : CWWKComp) (k : Kiosk) (d : Drv) :
    (ceresCompCalcRates c k d).comp.states = c.states := by
  unfold ceresCompCalcRates ceresDehardSection ceresKillFactorSection
  repeat' split
  all_goals rfl

/-- No path of `CERES_WinterKill.calc_rates` reaches the `_send_signal`
call: the signal list is empty along every path. -/
lemma ceresCalc_emitted_nil (c : CWWKComp) (k : Kiosk) (d : Drv) :
    (ceresCompCalcRates c k d).emitted = [] := by
  unfold ceresCompCalcRates ceresDehardSection ceresKillFactorSection
  repeat' split
  all_goals rfl

/-- Every path of `CERES_WinterKill.calc_rates` ends in an error. -/
lemma ceresCalc_not_ok (c : CWWKComp) (k : Kiosk) (d : Drv) :
    (ceresCompCalcRates c k d).outcome ≠ .ok () := by
  unfold ceresCompCalcRates ceresDehardSection ceresKillFactorSection
  repeat' split
  all_goals simp

/-! ## Claims -/

/-- C1, counterexample: with `TMIN_CROWN = log 19`, `LT50T = 0` and
`FROSTOL_KILLCF = 1` the kill factor computed in `FROSTOL.calc_rates` is
exactly the lower threshold `0.05`, yet the stored `RF_FROST` is `0.05`
itself and not `0`: the snap-to-zero test `killfactor < 0.05` is strict, so
the boundary value passes through. -/
theorem frostol_killfactor_boundary_cex :
    frostolKillfactorRaw frostolDemoParams frostolDemoStates boundaryDrv =
        0.05 ∧
      (frostolRates frostolDemoParams frostolDemoStates true 0
          boundaryDrv).RF_FROST ≠ 0 := by
  refine ⟨frostolDemo_killfactorRaw, ?_⟩
  show frostolKillfactorClipped
      (frostolKillfactorRaw frostolDemoParams frostolDemoStates boundaryDrv) ≠ 0
  rw [frostolDemo_killfactorRaw]
  norm_num [frostolKillfactorClipped]

/-- C1, amended: a kill factor computed in `FROSTOL.calc_rates` that lies in
the closed interval `[0.05, 0.95]` — the endpoints included — is stored in
`RF_FROST` unmodified; only values strictly below `0.05` snap to `0` and
values strictly above `0.95` snap to `1`. -/
theorem frostol_killfactor_passthrough (p : FrostolParams) (s : FrostolStates)
    (isVernalized : Bool) (snow_depth : ℝ) (drv : Drv)
    (h1 : 0.05 ≤ frostolKillfactorRaw p s drv)
    (h2 : frostolKillfactorRaw p s drv ≤ 0.95) :
    (frostolRates p s isVernalized snow_depth drv).RF_FROST =
      frostolKillfactorRaw p s drv := by
  show frostolKillfactorClipped (frostolKillfactorRaw p s drv) = _
  unfold frostolKillfactorClipped
  rw [if_neg (not_lt.mpr h1), if_neg (not_lt.mpr h2)]

/-- C1, witness: at the boundary input the kill factor is `0.05` and
`RF_FROST` equals it. -/
theorem frostol_killfactor_passthrough_witness :
    (frostolRates frostolDemoParams frostolDemoStates true 0
        boundaryDrv).RF_FROST =
      frostolKillfactorRaw frostolDemoParams frostolDemoStates boundaryDrv :=
  frostol_killfactor_passthrough _ _ _ _ _
    (by rw [frostolDemo_killfactorRaw])
    (by rw [frostolDemo_killfactorRaw]; norm_num)

/-- C3: `FROSTOL.initialize` raises `ParameterError` exactly when the
parameter `IDSL` is below 2. -/
theorem frostol_initialize_parameterError_iff (p : FrostolParams) :
    frostolInitialize p =
        .error (.parameterError frostolVernalizationMsg) ↔
      p.IDSL < 2 := by
  unfold frostolInitialize
  split
  · simp_all
  · simp_all

/-- C4: `calc_rates` never changes a State field: `FROSTOL.calc_rates`
leaves `LT50T`, `LT50I` and `IDFST` unchanged, and
`CERES_WinterKill.calc_rates` leaves `HARDINDEX` and `HIKILLTEMP`
unchanged, for all parameters, kiosk contents and driving variables. -/
theorem calc_rates_preserves_states (c : FrostolComp) (k : Kiosk) (d : Drv)
    (c2 : CWWKComp) (k2 : Kiosk) (d2 : Drv) :
    (frostolCompCalcRates c k d).1.states = c.states ∧
      (ceresCompCalcRates c2 k2 d2).comp.states = c2.states :=
  ⟨frostolCalc_states_eq c k d, ceresCalc_states_eq c2 k2 d2⟩

/-- C8: `FROSTOL.integrate` clamps the new `LT50T` into
`[LT50C, LT50I]` whenever `LT50C ≤ LT50I`, whatever the rates are. -/
theorem frostol_integrate_clamps (p : FrostolParams) (s : FrostolStates)
    (r : FrostolRates) (h : p.LT50C ≤ s.LT50I) :
    p.LT50C ≤ (frostolIntegrate p s r).LT50T ∧
      (frostolIntegrate p s r).LT50T ≤ s.LT50I := by
  constructor
  · show p.LT50C ≤ max p.LT50C _
    exact le_max_left _ _
  · show max p.LT50C (min s.LT50I _) ≤ s.LT50I
    exact max_le h (min_le_left _ _)

/-- C8, witness: the clamp evaluated at the demo component with zero
rates. -/
theorem frostol_integrate_clamps_witness :
    frostolDemoParams.LT50C ≤
        (frostolIntegrate frostolDemoParams frostolDemoStates
            ⟨0, 0, 0, 0, 0, 0⟩).LT50T ∧
      (frostolIntegrate frostolDemoParams frostolDemoStates
          ⟨0, 0, 0, 0, 0, 0⟩).LT50T ≤ frostolDemoStates.LT50I :=
  frostol_integrate_clamps _ _ _
    (by norm_num [frostolDemoParams, frostolDemoStates])

/-! ## Scenario lemmas for the FROSTOL hardening day -/

/-- On a not-vernalized day with crown temperature 5, the hardening rate is
`FROSTOL_H * 5 * (LT50T - LT50C)`. -/
lemma frostolRH_at5 (p : FrostolParams) (s : FrostolStates) (drv : Drv)
    (htc : drv.TEMP_CROWN = 5) :
    frostolRH p s false drv = p.FROSTOL_H * 5 * (s.LT50T - p.LT50C) := by
  simp only [frostolRH]
  rw [if_pos ⟨Bool.false_ne_true, by rw [htc]; norm_num⟩, htc]
  norm_num [limit, min_def, max_def]

/-- On a not-vernalized day with crown temperature 5 the dehardening
threshold is 10, so `RDH_TEMP` is zero. -/
lemma frostolRDH_TEMP_at5 (p : FrostolParams) (s : FrostolStates) (drv : Drv)
    (htc : drv.TEMP_CROWN = 5) :
    frostolRDH_TEMP p s false drv = 0 := by
  simp only [frostolRDH_TEMP, htc]
  norm_num

/-- With the snow depth at or below `FROSTOL_SDBASE` the snow fraction is
clipped to zero, so the respiration-stress rate vanishes. -/
lemma frostolRDH_RESP_zero_snow (p : FrostolParams) (snow_depth : ℝ)
    (drv : Drv) (hsb : snow_depth ≤ p.FROSTOL_SDBASE)
    (hbm : p.FROSTOL_SDBASE < p.FROSTOL_SDMAX) :
    frostolRDH_RESP p snow_depth drv = 0 := by
  simp only [frostolRDH_RESP, limit]
  have hq : (snow_depth - p.FROSTOL_SDBASE) /
      (p.FROSTOL_SDMAX - p.FROSTOL_SDBASE) ≤ 0 :=
    div_nonpos_of_nonpos_of_nonneg (by linarith) (by linarith)
  rw [min_eq_right (hq.trans (by norm_num)), max_eq_left hq, mul_zero]

/-- When the current LT50 lies below the crown temperature the
low-temperature-stress rate is negative. -/
lemma frostolRDH_TSTR_neg (p : FrostolParams) (s : FrostolStates) (drv : Drv)
    (h : s.LT50T < drv.TEMP_CROWN) :
    frostolRDH_TSTR p s drv < 0 := by
  simp only [frostolRDH_TSTR]
  apply div_neg_of_neg_of_pos
  · rw [mul_one]; linarith
  · exact Real.exp_pos _

/-- C2: with `LT50C = -20` and `IDSL ≥ 2`, `FROSTOL.initialize` succeeds
with `LT50T = LT50I = -0.6 + 0.142 * (-20) = -3.44`; on a day with
`TEMP_CROWN = 5`, the crop not vernalized, a positive hardening coefficient
and no snow, `calc_rates` computes a non-zero hardening rate `RH` and the
subsequent `integrate` strictly decreases `LT50T`. -/
theorem frostol_scenario_hardening
    (idsl fH fD fS fR sdbase sdmax killcf : ℝ) (drv : Drv)
    (hidsl : 2 ≤ idsl) (hH : 0 < fH) (hb : 0 ≤ sdbase) (hbm : sdbase < sdmax)
    (htc : drv.TEMP_CROWN = 5) (hsn : drv.SNOWDEPTH = 0) :
    ∃ st : FrostolStates,
      frostolInitialize ⟨idsl, -20, fH, fD, fS, fR, sdbase, sdmax, killcf, 0⟩ =
          .ok st ∧
        st.LT50T = -3.44 ∧ st.LT50I = -3.44 ∧
        (frostolRates ⟨idsl, -20, fH, fD, fS, fR, sdbase, sdmax, killcf, 0⟩
            st false drv.SNOWDEPTH drv).RH ≠ 0 ∧
        (frostolIntegrate ⟨idsl, -20, fH, fD, fS, fR, sdbase, sdmax, killcf, 0⟩
            st
            (frostolRates ⟨idsl, -20, fH, fD, fS, fR, sdbase, sdmax, killcf, 0⟩
              st false drv.SNOWDEPTH drv)).LT50T < st.LT50T := by
  refine ⟨⟨-3.44, -3.44, 0⟩, ?_, rfl, rfl, ?_, ?_⟩
  · simp only [frostolInitialize]
    rw [if_neg (not_lt.mpr hidsl)]
    norm_num
  · simp only [frostolRates]
    rw [frostolRH_at5 _ _ _ htc]
    have hpos : (0:ℝ) < fH * 5 * ((-3.44) - (-20)) := by nlinarith
    exact ne_of_gt hpos
  · have hRH : frostolRH ⟨idsl, -20, fH, fD, fS, fR, sdbase, sdmax, killcf, 0⟩
        ⟨-3.44, -3.44, 0⟩ false drv = fH * 5 * ((-3.44) - (-20)) :=
      frostolRH_at5 _ _ _ htc
    have hT : frostolRDH_TEMP
        ⟨idsl, -20, fH, fD, fS, fR, sdbase, sdmax, killcf, 0⟩
        ⟨-3.44, -3.44, 0⟩ false drv = 0 := frostolRDH_TEMP_at5 _ _ _ htc
    have hR : frostolRDH_RESP
        ⟨idsl, -20, fH, fD, fS, fR, sdbase, sdmax, killcf, 0⟩
        drv.SNOWDEPTH drv = 0 := by
      apply frostolRDH_RESP_zero_snow
      · rw [hsn]; exact hb
      · exact hbm
    have hS : frostolRDH_TSTR
        ⟨idsl, -20, fH, fD, fS, fR, sdbase, sdmax, killcf, 0⟩
        ⟨-3.44, -3.44, 0⟩ drv < 0 := by
      apply frostolRDH_TSTR_neg
      rw [htc]; norm_num
    simp only [frostolIntegrate, frostolRates, limit]
    rw [hRH, hT, hR]
    apply max_lt
    · norm_num
    · exact lt_of_le_of_lt (min_le_right _ _) (by nlinarith)

/-- C2, witness: the scenario at concrete coefficients
(`FROSTOL_H = 0.1`, `SDBASE = 4`, `SDMAX = 30`) and the demo day. -/
theorem frostol_scenario_hardening_witness :
    ∃ st : FrostolStates,
      frostolInitialize ⟨2, -20, 0.1, 0.1, 0.1, 0.1, 4, 30, 1, 0⟩ = .ok st ∧
        st.LT50T = -3.44 ∧ st.LT50I = -3.44 ∧
        (frostolRates ⟨2, -20, 0.1, 0.1, 0.1, 0.1, 4, 30, 1, 0⟩ st false
            demoDrv.SNOWDEPTH demoDrv).RH ≠ 0 ∧
        (frostolIntegrate ⟨2, -20, 0.1, 0.1, 0.1, 0.1, 4, 30, 1, 0⟩ st
            (frostolRates ⟨2, -20, 0.1, 0.1, 0.1, 0.1, 4, 30, 1, 0⟩ st false
              demoDrv.SNOWDEPTH demoDrv)).LT50T < st.LT50T :=
  frostol_scenario_hardening 2 0.1 0.1 0.1 0.1 4 30 1 demoDrv
    (by norm_num) (by norm_num) (by norm_num) (by norm_num) rfl rfl

/-- C6, counterexample: at a concrete input with `TMIN_CROWN = -10` below
the kill temperature `HIKILLTEMP = -6` — the condition the claim says
triggers the `crop_finish` emission — `CERES_WinterKill.calc_rates` emits
no signal at all: the preceding assignment `rates.KILLFACTOR = 1.` fails on
the undeclared rate name, so the call raises before `_send_signal` runs. -/
theorem ceres_crop_finish_not_emitted :
    ceresDemoDrv.TMIN_CROWN < ceresDemoComp.states.HIKILLTEMP ∧
      (ceresCompCalcRates ceresDemoComp demoKiosk ceresDemoDrv).emitted =
        [] ∧
      (ceresCompCalcRates ceresDemoComp demoKiosk ceresDemoDrv).outcome =
        .error (.attributeError "KILLFACTOR") := by
  refine ⟨by norm_num [ceresDemoDrv, ceresDemoComp], ?_, ?_⟩
  · exact ceresCalc_emitted_nil _ _ _
  · norm_num [ceresCompCalcRates, ceresDehardSection, ceresKillFactorSection,
      ceresDemoComp, ceresDemoDrv, demoKiosk]

/-- C6, amended: whenever `TMIN_CROWN` is below the current kill
temperature `HIKILLTEMP` — the condition under which `calc_rates` would
emit `crop_finish` — the call mutates no State field (`HARDINDEX` and
`HIKILLTEMP` are unchanged) and emits no signal; it does not complete
normally either, because the assignment to the undeclared rate name
`KILLFACTOR` fails before `_send_signal` is reached. -/
theorem ceres_killfactor_branch_no_emit (c : CWWKComp) (k : Kiosk) (d : Drv)
    (_h : d.TMIN_CROWN < c.states.HIKILLTEMP) :
    (ceresCompCalcRates c k d).comp.states = c.states ∧
      (ceresCompCalcRates c k d).emitted = [] ∧
      (ceresCompCalcRates c k d).outcome ≠ .ok () :=
  ⟨ceresCalc_states_eq c k d, ceresCalc_emitted_nil c k d,
    ceresCalc_not_ok c k d⟩

/-- C6, witness: the amended statement at the concrete triggering input. -/
theorem ceres_killfactor_branch_no_emit_witness :
    (ceresCompCalcRates ceresDemoComp demoKiosk ceresDemoDrv).comp.states =
        ceresDemoComp.states ∧
      (ceresCompCalcRates ceresDemoComp demoKiosk ceresDemoDrv).emitted =
        [] ∧
      (ceresCompCalcRates ceresDemoComp demoKiosk ceresDemoDrv).outcome ≠
        .ok () :=
  ceres_killfactor_branch_no_emit ceresDemoComp demoKiosk ceresDemoDrv
    (by norm_num [ceresDemoDrv, ceresDemoComp])

/-- C7: whenever the kiosk holds a snow depth, every execution path of
`CERES_WinterKill.calc_rates` fails on an access to a name that is not the
declared one: the parameter reads `CERESWK_HC_S1`, `CERESWK_HC_S2` and
`CERESWK_DHC` (declared `CWWK_HC_S1`, `CWWK_HC_S2`, `CWWK_DHC`), the rate
write `KILLFACTOR` (declared `HIKILLFACTOR`), or the driving-variable read
`TMINCROWN` (provided as `TMIN_CROWN`); the call never completes. -/
theorem ceres_calc_rates_undeclared_name (c : CWWKComp) (k : Kiosk) (d : Drv)
    (hsd : k.SNOWDEPTH ≠ none) :
    (ceresCompCalcRates c k d).outcome =
        .error (.attributeError "CERESWK_HC_S1") ∨
      (ceresCompCalcRates c k d).outcome =
        .error (.attributeError "CERESWK_HC_S2") ∨
      (ceresCompCalcRates c k d).outcome =
        .error (.attributeError "CERESWK_DHC") ∨
      (ceresCompCalcRates c k d).outcome =
        .error (.attributeError "KILLFACTOR") ∨
      (ceresCompCalcRates c k d).outcome =
        .error (.attributeError "TMINCROWN") := by
  rcases hs : k.SNOWDEPTH with _ | sd
  · exact absurd hs hsd
  · simp only [ceresCompCalcRates, ceresDehardSection, ceresKillFactorSection,
      hs]
    repeat' split
    all_goals simp

/-- C7, witness: the failure at the concrete demo input. -/
theorem ceres_calc_rates_undeclared_name_witness :
    (ceresCompCalcRates ceresDemoComp demoKiosk ceresDemoDrv).outcome =
        .error (.attributeError "CERESWK_HC_S1") ∨
      (ceresCompCalcRates ceresDemoComp demoKiosk ceresDemoDrv).outcome =
        .error (.attributeError "CERESWK_HC_S2") ∨
      (ceresCompCalcRates ceresDemoComp demoKiosk ceresDemoDrv).outcome =
        .error (.attributeError "CERESWK_DHC") ∨
      (ceresCompCalcRates ceresDemoComp demoKiosk ceresDemoDrv).outcome =
        .error (.attributeError "KILLFACTOR") ∨
      (ceresCompCalcRates ceresDemoComp demoKiosk ceresDemoDrv).outcome =
        .error (.attributeError "TMINCROWN") :=
  ceres_calc_rates_undeclared_name ceresDemoComp demoKiosk ceresDemoDrv
    (by simp [demoKiosk])

/-- C9: when the snow depth is resolvable, `FROSTOL.calc_rates` fails with
the unbound-local `NameError` on `isVernalized` exactly when the kiosk does
not hold the key `ISVERNALISED` (the `KeyError` of the lookup is swallowed
by the bare `except` block, and no kernel error such as
`UnknownVariableError` is raised), and it completes the rate computation
exactly when the key is present. -/
theorem frostol_isvernalised_nameError (c : FrostolComp) (k : Kiosk)
    (d : Drv) (hsd : frostolSnowDepth c.params k d ≠ none) :
    ((frostolCompCalcRates c k d).2 =
          .error (.nameError "isVernalized") ↔
        k.ISVERNALISED = none) ∧
      ((frostolCompCalcRates c k d).2 = .ok () ↔
        k.ISVERNALISED ≠ none) := by
  rcases hs : frostolSnowDepth c.params k d with _ | sd
  · exact absurd hs hsd
  · rcases hv : k.ISVERNALISED with _ | b
    · simp [frostolCompCalcRates, hs, hv]
    · simp [frostolCompCalcRates, hs, hv]

/-- C9, witness: with `ISVERNALISED` absent and the snow depth taken from
the driving variables, the call fails with the `NameError`. -/
theorem frostol_isvernalised_nameError_witness :
    ((frostolCompCalcRates frostolDemoComp ⟨none, some 3⟩ demoDrv).2 =
          .error (.nameError "isVernalized") ↔
        (Kiosk.mk none (some 3)).ISVERNALISED = none) ∧
      ((frostolCompCalcRates frostolDemoComp ⟨none, some 3⟩ demoDrv).2 =
          .ok () ↔
        (Kiosk.mk none (some 3)).ISVERNALISED ≠ none) :=
  frostol_isvernalised_nameError frostolDemoComp ⟨none, some 3⟩ demoDrv
    (by simp [frostolSnowDepth, frostolDemoComp, frostolDemoParams])

/-- C10: once the snow depth resolves to `SD`, `CrownTemperature.__call__`
returns exactly `(TMIN, TMAX, TEMP)` from the driving variables whenever
`TMIN ≥ 0` (snow depth has no effect), and only when `TMIN < 0` applies
the snow-damped formula with `CROWNTMPA`/`CROWNTMPB`, the effective snow
depth being clipped into `[0, 15]` cm. -/
theorem crown_temperature_passthrough (p : CrownTemperatureParams)
    (k : Kiosk) (drv : Drv) (SD : ℝ)
    (hsd : crownSnowDepth p k drv = some SD) :
    (0 ≤ drv.TMIN →
        CrownTemperature_call p k drv =
          .ok (drv.TMIN, drv.TMAX, drv.TEMP)) ∧
      (drv.TMIN < 0 →
        CrownTemperature_call p k drv =
          .ok
            (drv.TMIN *
                (p.CROWNTMPA + p.CROWNTMPB * (1 - limit 0 15 SD / 15) ^ 2),
              drv.TMAX *
                (p.CROWNTMPA + p.CROWNTMPB * (1 - limit 0 15 SD / 15) ^ 2),
              (drv.TMIN *
                    (p.CROWNTMPA +
                      p.CROWNTMPB * (1 - limit 0 15 SD / 15) ^ 2) +
                  drv.TMAX *
                    (p.CROWNTMPA +
                      p.CROWNTMPB * (1 - limit 0 15 SD / 15) ^ 2)) /
                2)) := by
  simp only [CrownTemperature_call, hsd]
  constructor
  · intro h
    rw [if_neg (not_lt.mpr h)]
  · intro h
    rw [if_pos h]

/-- C10, witness: with `TMIN = 1 ≥ 0` and the snow depth taken from the
driving variables, the call returns the air temperatures unchanged. -/
theorem crown_temperature_passthrough_witness :
    CrownTemperature_call crownDemoParams demoKiosk demoDrv =
      .ok (demoDrv.TMIN, demoDrv.TMAX, demoDrv.TEMP) :=
  (crown_temperature_passthrough crownDemoParams demoKiosk demoDrv
      demoDrv.SNOWDEPTH (by simp [crownSnowDepth, crownDemoParams])).1
    (by norm_num [demoDrv])

/-- C5: for every day, each wrapper forwards `calc_rates` to its two
children exactly once each, water balance before nutrient balance, and
forwards `integrate` exactly once each in the same order; the wrapper's
state is exactly the pair of child states (it holds no independent state),
so the new wrapper state is the componentwise result of the child calls.
Stated for `SoilWaterNPKLimitedProduction` (children `WaterbalanceFD`,
`NPK_Soil_Dynamics`) and `SoilWaterNPKPotenialProduction` (children
`WaterbalancePP`, `NPK_PotentialProduction`), with the children abstract:
each child call reports exactly its own identity once. -/
theorem soil_wrapper_forwarding {α β γ δ : Type}
    (wbCalc : ℕ → Drv → α → α × List MethodCall)
    (npkCalc : ℕ → Drv → β → β × List MethodCall)
    (wbInt : ℕ → ℝ → α → α × List MethodCall)
    (npkInt : ℕ → ℝ → β → β × List MethodCall)
    (ppCalc : ℕ → Drv → γ → γ × List MethodCall)
    (npCalc : ℕ → Drv → δ → δ × List MethodCall)
    (ppInt : ℕ → ℝ → γ → γ × List MethodCall)
    (npInt : ℕ → ℝ → δ → δ × List MethodCall)
    (day : ℕ) (drv : Drv) (delt : ℝ)
    (s : SoilWaterNPKLimitedProductionState α β)
    (t : SoilWaterNPKPotenialProductionState γ δ)
    (hwb : (wbCalc day drv s.WaterbalanceFD).2 =
      [.calcRates "WaterbalanceFD"])
    (hnpk : (npkCalc day drv s.NPK_Soil_Dynamics).2 =
      [.calcRates "NPK_Soil_Dynamics"])
    (hwbI : (wbInt day delt s.WaterbalanceFD).2 =
      [.integrateCall "WaterbalanceFD"])
    (hnpkI : (npkInt day delt s.NPK_Soil_Dynamics).2 =
      [.integrateCall "NPK_Soil_Dynamics"])
    (hpp : (ppCalc day drv t.WaterbalancePP).2 =
      [.calcRates "WaterbalancePP"])
    (hnp : (npCalc day drv t.NPK_PotentialProduction).2 =
      [.calcRates "NPK_PotentialProduction"])
    (hppI : (ppInt day delt t.WaterbalancePP).2 =
      [.integrateCall "WaterbalancePP"])
    (hnpI : (npInt day delt t.NPK_PotentialProduction).2 =
      [.integrateCall "NPK_PotentialProduction"]) :
    (soilWaterNPKLimitedCalcRates wbCalc npkCalc day drv s).2 =
        [.calcRates "WaterbalanceFD", .calcRates "NPK_Soil_Dynamics"] ∧
      (soilWaterNPKLimitedCalcRates wbCalc npkCalc day drv s).1 =
        ⟨(wbCalc day drv s.WaterbalanceFD).1,
          (npkCalc day drv s.NPK_Soil_Dynamics).1⟩ ∧
      (soilWaterNPKLimitedIntegrate wbInt npkInt day delt s).2 =
        [.integrateCall "WaterbalanceFD",
          .integrateCall "NPK_Soil_Dynamics"] ∧
      (soilWaterNPKLimitedIntegrate wbInt npkInt day delt s).1 =
        ⟨(wbInt day delt s.WaterbalanceFD).1,
          (npkInt day delt s.NPK_Soil_Dynamics).1⟩ ∧
      (soilWaterNPKPotenialCalcRates ppCalc npCalc day drv t).2 =
        [.calcRates "WaterbalancePP",
          .calcRates "NPK_PotentialProduction"] ∧
      (soilWaterNPKPotenialCalcRates ppCalc npCalc day drv t).1 =
        ⟨(ppCalc day drv t.WaterbalancePP).1,
          (npCalc day drv t.NPK_PotentialProduction).1⟩ ∧
      (soilWaterNPKPotenialIntegrate ppInt npInt day delt t).2 =
        [.integrateCall "WaterbalancePP",
          .integrateCall "NPK_PotentialProduction"] ∧
      (soilWaterNPKPotenialIntegrate ppInt npInt day delt t).1 =
        ⟨(ppInt day delt t.WaterbalancePP).1,
          (npInt day delt t.NPK_PotentialProduction).1⟩ := by
  refine ⟨?_, rfl, ?_, rfl, ?_, rfl, ?_, rfl⟩
  · simp [soilWaterNPKLimitedCalcRates, hwb, hnpk]
  · simp [soilWaterNPKLimitedIntegrate, hwbI, hnpkI]
  · simp [soilWaterNPKPotenialCalcRates, hpp, hnp]
  · simp [soilWaterNPKPotenialIntegrate, hppI, hnpI]

/-- C5, witness: the forwarding at trivial concrete children over `Unit`
states, each reporting exactly its own call. -/
theorem soil_wrapper_forwarding_witness :
    (soilWaterNPKLimitedCalcRates
          (fun _ _ u => (u, [.calcRates "WaterbalanceFD"]))
          (fun _ _ u => (u, [.calcRates "NPK_Soil_Dynamics"])) 0
          demoDrv (⟨(), ()⟩ : SoilWaterNPKLimitedProductionState Unit Unit)).2 =
        [.calcRates "WaterbalanceFD", .calcRates "NPK_Soil_Dynamics"] ∧
      (soilWaterNPKLimitedCalcRates
          (fun _ _ u => (u, [.calcRates "WaterbalanceFD"]))
          (fun _ _ u => (u, [.calcRates "NPK_Soil_Dynamics"])) 0
          demoDrv (⟨(), ()⟩ : SoilWaterNPKLimitedProductionState Unit Unit)).1 =
        ⟨((fun _ _ u => (u, [MethodCall.calcRates "WaterbalanceFD"])) 0
            demoDrv ()).1,
          ((fun _ _ u => (u, [MethodCall.calcRates "NPK_Soil_Dynamics"])) 0
            demoDrv ()).1⟩ ∧
      (soilWaterNPKLimitedIntegrate
          (fun _ _ u => (u, [.integrateCall "WaterbalanceFD"]))
          (fun _ _ u => (u, [.integrateCall "NPK_Soil_Dynamics"])) 0 1
          (⟨(), ()⟩ : SoilWaterNPKLimitedProductionState Unit Unit)).2 =
        [.integrateCall "WaterbalanceFD",
          .integrateCall "NPK_Soil_Dynamics"] ∧
      (soilWaterNPKLimitedIntegrate
          (fun _ _ u => (u, [.integrateCall "WaterbalanceFD"]))
          (fun _ _ u => (u, [.integrateCall "NPK_Soil_Dynamics"])) 0 1
          (⟨(), ()⟩ : SoilWaterNPKLimitedProductionState Unit Unit)).1 =
        ⟨((fun _ _ u => (u, [MethodCall.integrateCall "WaterbalanceFD"])) 0
            (1 : ℝ) ()).1,
          ((fun _ _ u => (u, [MethodCall.integrateCall "NPK_Soil_Dynamics"]))
            0 (1 : ℝ) ()).1⟩ ∧
      (soilWaterNPKPotenialCalcRates
          (fun _ _ u => (u, [.calcRates "WaterbalancePP"]))
          (fun _ _ u => (u, [.calcRates "NPK_PotentialProduction"])) 0
          demoDrv
          (⟨(), ()⟩ : SoilWaterNPKPotenialProductionState Unit Unit)).2 =
        [.calcRates "WaterbalancePP",
          .calcRates "NPK_PotentialProduction"] ∧
      (soilWaterNPKPotenialCalcRates
          (fun _ _ u => (u, [.calcRates "WaterbalancePP"]))
          (fun _ _ u => (u, [.calcRates "NPK_PotentialProduction"])) 0
          demoDrv
          (⟨(), ()⟩ : SoilWaterNPKPotenialProductionState Unit Unit)).1 =
        ⟨((fun _ _ u => (u, [MethodCall.calcRates "WaterbalancePP"])) 0
            demoDrv ()).1,
          ((fun _ _ u =>
                (u, [MethodCall.calcRates "NPK_PotentialProduction"])) 0
            demoDrv ()).1⟩ ∧
      (soilWaterNPKPotenialIntegrate
          (fun _ _ u => (u, [.integrateCall "WaterbalancePP"]))
          (fun _ _ u => (u, [.integrateCall "NPK_PotentialProduction"])) 0 1
          (⟨(), ()⟩ : SoilWaterNPKPotenialProductionState Unit Unit)).2 =
        [.integrateCall "WaterbalancePP",
          .integrateCall "NPK_PotentialProduction"] ∧
      (soilWaterNPKPotenialIntegrate
          (fun _ _ u => (u, [.integrateCall "WaterbalancePP"]))
          (fun _ _ u => (u, [.integrateCall "NPK_PotentialProduction"])) 0 1
          (⟨(), ()⟩ : SoilWaterNPKPotenialProductionState Unit Unit)).1 =
        ⟨((fun _ _ u => (u, [MethodCall.integrateCall "WaterbalancePP"])) 0
            (1 : ℝ) ()).1,
          ((fun _ _ u =>
                (u, [MethodCall.integrateCall "NPK_PotentialProduction"])) 0
            (1 : ℝ) ()).1⟩ :=
  soil_wrapper_forwarding
    (fun _ _ u => (u, [.calcRates "WaterbalanceFD"]))
    (fun _ _ u => (u, [.calcRates "NPK_Soil_Dynamics"]))
    (fun _ _ u => (u, [.integrateCall "WaterbalanceFD"]))
    (fun _ _ u => (u, [.integrateCall "NPK_Soil_Dynamics"]))
    (fun _ _ u => (u, [.calcRates "WaterbalancePP"]))
    (fun _ _ u => (u, [.calcRates "NPK_PotentialProduction"]))
    (fun _ _ u => (u, [.integrateCall "WaterbalancePP"]))
    (fun _ _ u => (u, [.integrateCall "NPK_PotentialProduction"]))
    0 demoDrv 1 ⟨(), ()⟩ ⟨(), ()⟩
    rfl rfl rfl rfl rfl rfl rfl rfl
